import Mathlib

/-!
Verification of the ProcessGuard client library (ProcessGuardClient.cpp /
ProcessGuardClient.hpp) against its natural-language specification.

The embedding models the JSON values exchanged over the control channel as an
inductive type, the named-pipe transport as an oracle of per-exchange outcomes,
and each client operation as a pure state-passing function over a `World`
record holding the pipe state, the client's connected flag, the last error
string, the log of requests written to the pipe, and the heartbeat-callback
invocations.  `nlohmann::json` accessors that can throw (`value` with a
type-mismatched or null field, `value` on a non-object) are modelled with
`Except String`; the C++ `catch` blocks are modelled by `catchClient`.
-/

namespace ProcessGuard

/-- JSON values, modelling `nlohmann::json` (integers only; the client never
builds or reads floating-point fields). Objects are association lists; lookup
uses the first matching key. -/
inductive Json where
  | null
  | bool (b : Bool)
  | num (n : Int)
  | str (s : String)
  | arr (elems : List Json)
  | obj (fields : List (String × Json))

/-- First-match association-list lookup (models keyed access to a map). -/
def lookupA {α : Type} : List (String × α) → String → Option α
  | [], _ => none
  | (k, v) :: rest, key => if k = key then some v else lookupA rest key

/-- Insert-or-assign for an association list (models `std::map::operator[]`
assignment). -/
def setA {α : Type} : List (String × α) → String → α → List (String × α)
  | [], key, v => [(key, v)]
  | (k, w) :: rest, key, v =>
    if k = key then (k, v) :: rest else (k, w) :: setA rest key v

/-- Erase a key from an association list (models `std::map::erase`). -/
def eraseA {α : Type} : List (String × α) → String → List (String × α)
  | [], _ => []
  | (k, v) :: rest, key =>
    if k = key then eraseA rest key else (k, v) :: eraseA rest key

/-- `j.is_object()`. -/
def Json.isObject : Json → Bool
  | .obj _ => true
  | _ => false

/-- Field lookup: `some v` iff `j` is an object containing the key
(`j.contains(key)` together with `j[key]`); `none` otherwise. -/
def Json.lookup : Json → String → Option Json
  | .obj fs, key => lookupA fs key
  | _, _ => none

/-- `j.value(key, d)` for a string default: returns `d` when the key is
absent, the string when present with string type, and throws (models
`nlohmann` `type_error`) when the value has another type or `j` is not an
object. -/
def Json.valueStr (j : Json) (key : String) (d : String) : Except String String :=
  match j with
  | .obj fs =>
    match lookupA fs key with
    | none => .ok d
    | some (.str s) => .ok s
    | some _ => .error "json type error"
  | _ => .error "json value on non-object"

/-- `j.value(key, d)` for a boolean default. -/
def Json.valueBool (j : Json) (key : String) (d : Bool) : Except String Bool :=
  match j with
  | .obj fs =>
    match lookupA fs key with
    | none => .ok d
    | some (.bool b) => .ok b
    | some _ => .error "json type error"
  | _ => .error "json value on non-object"

/-- `j.value(key, d)` for an integer default. -/
def Json.valueInt (j : Json) (key : String) (d : Int) : Except String Int :=
  match j with
  | .obj fs =>
    match lookupA fs key with
    | none => .ok d
    | some (.num n) => .ok n
    | some _ => .error "json type error"
  | _ => .error "json value on non-object"

/-- The failure response objects that `PipeClient::SendRequest` builds
in-process: `{{"success", false}, {"message", msg}}`. -/
def failObj (msg : String) : Json :=
  .obj [("success", .bool false), ("message", .str msg)]

/-- `PIPE_BUFFER_SIZE` from ProcessGuardClient.cpp line 19. -/
def PIPE_BUFFER_SIZE : Nat := 65536

/-- State of a `PipeClient`: `pipeHandle_` (`none` models
`INVALID_HANDLE_VALUE`) and `connected_`. -/
structure PipeState where
  handle : Option Nat
  connected : Bool

/-- `DisconnectInternal`: closes the handle and clears the connected flag. -/
def pipeDisconnected : PipeState := { handle := none, connected := false }

/-- Transport outcome of one request/response exchange, as seen by
`PipeClient::SendRequest` once it is connected: the `WriteFile` call fails (or
writes short), the `ReadFile` call fails (or reads zero bytes), the read bytes
parse to a JSON value, or `nlohmann::json::parse` throws. -/
inductive ExchangeResult where
  | writeFail
  | readFail
  | parsed (j : Json)
  | parseFail (msg : String)
  | parseUnknown

/-- `PipeClient::SendRequest` (ProcessGuardClient.cpp lines 79-125) given the
transport outcome `xr`: an unconnected client fails fast with "Not connected";
otherwise the pipe is disconnected (`DisconnectInternal`) on every path —
write failure, read failure, and before the response is parsed — and the
response value (or the corresponding failure object) is returned. -/
def pipeSendRequest (st : PipeState) (xr : ExchangeResult) : Json × PipeState :=
  if st.connected = false then
    (failObj "Not connected", st)
  else
    match xr with
    | .writeFail => (failObj "Write failed", pipeDisconnected)
    | .readFail => (failObj "Read failed", pipeDisconnected)
    | .parsed j => (j, pipeDisconnected)
    | .parseFail m => (failObj ("Parse error: " ++ m), pipeDisconnected)
    | .parseUnknown => (failObj "Unknown parse error", pipeDisconnected)

/-- The single `ReadFile(pipeHandle_, buffer, PIPE_BUFFER_SIZE - 1, ...)` call
of `SendRequest`: of the `avail` bytes the peer has written, the OS delivers
at most `osCount` of them and never more than the requested count
`PIPE_BUFFER_SIZE - 1`. The result is the byte sequence placed in `buffer`
(whose length is `bytesRead`). -/
def readFileBytes (avail : List Char) (osCount : Nat) : List Char :=
  List.take (min osCount (PIPE_BUFFER_SIZE - 1)) avail

/-! ## The retry loop of `PipeClient::Connect` (lines 28-69) -/

/-- `ERROR_PIPE_BUSY` (winerror.h value 231), the code the busy branch of
`Connect` tests `GetLastError()` against. -/
def ERROR_PIPE_BUSY : Nat := 231

/-- Outcome of one `CreateFileA` + `SetNamedPipeHandleState` attempt inside
the `Connect` loop: either a usable pipe handle is obtained, or the attempt
fails and `GetLastError()` reads `lastErr` at line 54 (this covers both a
failed `CreateFileA` and a failed `SetNamedPipeHandleState`). -/
inductive AttemptOutcome where
  | connOk
  | connFail (lastErr : Nat)

/-- Environment of a `Connect` call: the outcome of the k-th connection
attempt and the values of `GetTickCount() - startTime` observed at the two
timeout checks (line 57 and line 62) of the k-th iteration.  Leaving the
elapsed readings unconstrained lets the theorems quantify over every possible
clock behaviour. -/
structure ConnEnv where
  outcome : Nat → AttemptOutcome
  elapsed1 : Nat → Nat
  elapsed2 : Nat → Nat

/-- The `while (true)` retry loop of `PipeClient::Connect`, iteration `k`
onward, with explicit fuel: `some true` models `return true` (connected),
`some false` models falling out of the loop (`break` then `return false`),
and `none` means the loop has not returned within `fuel` iterations.
Faithful to the source: the timeout checks and the `WaitNamedPipeA` call are
reached only when `GetLastError() != ERROR_PIPE_BUSY`; a busy attempt goes
straight into the next iteration. -/
def connectLoop (env : ConnEnv) (timeoutMs : Nat) : Nat → Nat → Option Bool
  | _, 0 => none
  | k, fuel + 1 =>
    match env.outcome k with
    | .connOk => some true
    | .connFail err =>
      if err ≠ ERROR_PIPE_BUSY then
        if env.elapsed1 k ≥ timeoutMs then some false
        else if env.elapsed2 k ≥ timeoutMs then some false
        else connectLoop env timeoutMs (k + 1) fuel
      else connectLoop env timeoutMs (k + 1) fuel

/-! ## The `Client` layer (struct `Client::Impl` and its operations) -/

/-- The fields of `Client::Impl` relevant to the verified operations: the
owned `PipeClient`, the `connected` flag, `lastError`, and whether a
heartbeat-failed callback has been installed. -/
structure ClientState where
  pipe : PipeState
  connected : Bool
  lastError : String
  hbCallbackSet : Bool

/-- Oracle for a whole client session: the result of the k-th
`PipeClient::Connect` call and the transport outcome of the k-th exchange
actually performed on a connected pipe. -/
structure Env where
  connectOk : Nat → Bool
  exch : Nat → ExchangeResult

/-- Execution state threaded through the client operations: the client state,
counters selecting the next oracle entries, the log of requests fully written
to the pipe (in order), and the arguments of the heartbeat-failed callback
invocations (in order). -/
structure World where
  cs : ClientState
  nConnect : Nat
  nExch : Nat
  sent : List Json
  hbFailCalls : List String

/-- `Client::Connect` (lines 435-444): runs `PipeClient::Connect` (outcome
from the oracle; the pipe ends connected with a fresh handle on success,
fully disconnected on failure), copies the result into `impl_->connected`,
and sets `lastError` on failure. -/
def clientConnect (env : Env) (w : World) : Bool × World :=
  let ok := env.connectOk w.nConnect
  let p : PipeState :=
    if ok then { handle := some w.nConnect, connected := true } else pipeDisconnected
  (ok,
    { w with
      nConnect := w.nConnect + 1
      cs := { w.cs with
        pipe := p
        connected := ok
        lastError := if ok then w.cs.lastError else "Failed to connect to service pipe" } })

/-- `impl_->pipeClient->SendRequest(request)` as performed by the client
operations: consumes the next exchange outcome when the pipe is connected and
records the request in the sent log whenever the write succeeded (that is, on
every connected path except a write failure). -/
def clientSendRequest (env : Env) (w : World) (req : Json) : Json × World :=
  if w.cs.pipe.connected = false then
    (failObj "Not connected", w)
  else
    let xr := env.exch w.nExch
    let r := pipeSendRequest w.cs.pipe xr
    let wrote : Bool := match xr with | .writeFail => false | _ => true
    (r.1,
      { w with
        nExch := w.nExch + 1
        cs := { w.cs with pipe := r.2 }
        sent := if wrote then w.sent ++ [req] else w.sent })

/-- `impl_->connected = impl_->pipeClient->IsConnected();` after an
exchange. -/
def syncConnected (w : World) : World :=
  { w with cs := { w.cs with connected := w.cs.pipe.connected } }

/-- `impl_->lastError = msg;`. -/
def setLastError (w : World) (msg : String) : World :=
  { w with cs := { w.cs with lastError := msg } }

/-- Tag a thrown `nlohmann` error with the world state at the throw point,
so the enclosing `catch` can resume from it. -/
def liftJ {α : Type} (w : World) (r : Except String α) : Except (String × World) α :=
  match r with
  | .ok a => .ok a
  | .error m => .error (m, w)

/-- The `catch (const std::exception &e)` blocks of the client operations:
on a throw, `impl_->connected = false`, `lastError` is set to the operation's
tag followed by `e.what()`, and `false` is returned. -/
def catchClient (errHead : String) (r : Except (String × World) (Bool × World)) :
    Bool × World :=
  match r with
  | .ok x => x
  | .error (msg, w) =>
    (false, { w with cs := { w.cs with connected := false, lastError := errHead ++ msg } })

/-- `MonitorItem` (ProcessGuardClient.hpp lines 20-29). -/
structure MonitorItem where
  id : String
  exePath : String
  args : String
  name : String
  minimize : Bool
  noWindow : Bool
  enabled : Bool
  heartbeatTimeoutMs : Int

/-- The `config` object built by `AddMonitorItem` (lines 509-521): fixed
fields plus `args` only when non-empty. -/
def monitorItemConfig (item : MonitorItem) : Json :=
  .obj
    ([("id", .str item.id), ("exe_path", .str item.exePath), ("name", .str item.name),
      ("minimize", .bool item.minimize), ("no_window", .bool item.noWindow),
      ("enabled", .bool item.enabled), ("heartbeat_timeout_ms", .num item.heartbeatTimeoutMs)]
      ++ (if item.args = "" then [] else [("args", .str item.args)]))

/-- The guard `listResponse.is_object() && listResponse.contains("data") &&
listResponse["data"].is_array()` (line 487), returning the array elements
when it holds. -/
def Json.dataArray (j : Json) : Option (List Json) :=
  match j with
  | .obj fs =>
    match lookupA fs "data" with
    | some (.arr xs) => some xs
    | _ => none
  | _ => none

/-- The duplicate-path scan of `AddMonitorItem` (lines 489-497): walk the
`data` entries in order, read `existingItem.value("exe_path", "")` (which can
throw), and report `true` at the first non-empty path equal to `p`. -/
def scanDup (p : String) : List Json → Except String Bool
  | [] => .ok false
  | e :: rest =>
    match e.valueStr "exe_path" "" with
    | .error m => .error m
    | .ok s => if s ≠ "" ∧ s = p then .ok true else scanDup p rest

/-- The `try` body of `AddMonitorItem` (lines 480-531): send a `list`
request, resync the connected flag, scan the returned data for a duplicate
executable path (rejecting with "Executable path already monitored"),
reconnect if needed (rejecting with "Failed to reconnect to service"), then
send the `add` request and interpret its response. -/
def addCore (env : Env) (item : MonitorItem) (w : World) :
    Except (String × World) (Bool × World) :=
  let listRequest : Json := .obj [("type", .str "list")]
  let lr := clientSendRequest env w listRequest
  let w1 := syncConnected lr.2
  let dupRes : Except (String × World) Bool :=
    match lr.1.dataArray with
    | some xs => liftJ w1 (scanDup item.exePath xs)
    | none => .ok false
  match dupRes with
  | .error e => .error e
  | .ok true => .ok (false, setLastError w1 "Executable path already monitored")
  | .ok false =>
    match (if w1.cs.connected then (true, w1) else clientConnect env w1) with
    | (false, w2) => .ok (false, setLastError w2 "Failed to reconnect to service")
    | (true, w2) =>
      let request : Json := .obj [("type", .str "add"), ("config", monitorItemConfig item)]
      let ar := clientSendRequest env w2 request
      let w3 := syncConnected ar.2
      match (if ar.1.isObject then liftJ w3 (ar.1.valueBool "success" false) else .ok false) with
      | .error e => .error e
      | .ok true => .ok (true, w3)
      | .ok false =>
        match liftJ w3 (ar.1.valueStr "message" "Unknown error") with
        | .error e => .error e
        | .ok msg => .ok (false, setLastError w3 msg)

/-- `Client::AddMonitorItem` after the initial connect guard: the three
validation checks (lines 464-478) in source order, then the guarded `try`
body. -/
def addAfterConnect (env : Env) (item : MonitorItem) (w : World) : Bool × World :=
  if item.id = "" then (false, setLastError w "Item ID cannot be empty")
  else if item.exePath = "" then (false, setLastError w "Executable path cannot be empty")
  else if item.name = "" then (false, setLastError w "Item name cannot be empty")
  else catchClient "AddMonitorItem error: " (addCore env item w)

/-- `Client::AddMonitorItem` (lines 459-544), including the initial
`if (!impl_->connected && !Connect()) return false;`. -/
def addMonitorItem (env : Env) (item : MonitorItem) (w : World) : Bool × World :=
  if w.cs.connected then addAfterConnect env item w
  else
    let c := clientConnect env w
    if c.1 then addAfterConnect env item c.2 else (false, c.2)

/-- Shared shape of `StopMonitorItem`/`StartMonitorItem` `try` bodies
(lines 627-693): send `{"type": reqType, "id": id}` and interpret the
response. -/
def idRequestCore (env : Env) (reqType : String) (id : String) (w : World) :
    Except (String × World) (Bool × World) :=
  let request : Json := .obj [("type", .str reqType), ("id", .str id)]
  let r := clientSendRequest env w request
  let w1 := syncConnected r.2
  match (if r.1.isObject then liftJ w1 (r.1.valueBool "success" false) else .ok false) with
  | .error e => .error e
  | .ok true => .ok (true, w1)
  | .ok false =>
    match liftJ w1 (r.1.valueStr "message" "Unknown error") with
    | .error e => .error e
    | .ok msg => .ok (false, setLastError w1 msg)

/-- `Client::StopMonitorItem` (lines 627-659). -/
def stopMonitorItem (env : Env) (id : String) (w : World) : Bool × World :=
  if w.cs.connected then catchClient "StopMonitorItem error: " (idRequestCore env "stop" id w)
  else
    let c := clientConnect env w
    if c.1 then catchClient "StopMonitorItem error: " (idRequestCore env "stop" id c.2)
    else (false, c.2)

/-- `Client::StartMonitorItem` (lines 661-693). -/
def startMonitorItem (env : Env) (id : String) (w : World) : Bool × World :=
  if w.cs.connected then catchClient "StartMonitorItem error: " (idRequestCore env "start" id w)
  else
    let c := clientConnect env w
    if c.1 then catchClient "StartMonitorItem error: " (idRequestCore env "start" id c.2)
    else (false, c.2)

/-- `Client::PauseMonitorItem` (ProcessGuardClient.hpp line 110):
`{ return StopMonitorItem(id); }`. -/
def pauseMonitorItem (env : Env) (id : String) (w : World) : Bool × World :=
  stopMonitorItem env id w

/-- `Client::ResumeMonitorItem` (ProcessGuardClient.hpp line 111):
`{ return StartMonitorItem(id); }`. -/
def resumeMonitorItem (env : Env) (id : String) (w : World) : Bool × World :=
  startMonitorItem env id w

/-- The `try` body of `Client::SendHeartbeat` (lines 841-862): build the
heartbeat request with the current epoch milliseconds `now`, exchange it,
resync the connected flag, and on a non-success response set `lastError` and
invoke the heartbeat-failed callback when one is installed. -/
def sendHeartbeatCore (env : Env) (now : Int) (itemId : String) (w : World) :
    Except (String × World) (Bool × World) :=
  let request : Json :=
    .obj [("type", .str "heartbeat"), ("item_id", .str itemId), ("timestamp", .num now)]
  let r := clientSendRequest env w request
  let w1 := syncConnected r.2
  match (if r.1.isObject then liftJ w1 (r.1.valueBool "success" false) else .ok false) with
  | .error e => .error e
  | .ok true => .ok (true, w1)
  | .ok false =>
    match liftJ w1 (r.1.valueStr "message" "Unknown error") with
    | .error e => .error e
    | .ok msg =>
      let w2 := setLastError w1 ("Heartbeat failed: " ++ msg)
      let w3 :=
        if w2.cs.hbCallbackSet then { w2 with hbFailCalls := w2.hbFailCalls ++ [itemId] }
        else w2
      .ok (false, w3)

/-- `Client::SendHeartbeat` (lines 836-875), including the initial
`if (!impl_->connected && !Connect()) return false;` — note that this early
return performs no exchange and does not invoke the callback. -/
def sendHeartbeat (env : Env) (now : Int) (itemId : String) (w : World) : Bool × World :=
  if w.cs.connected then catchClient "SendHeartbeat error: " (sendHeartbeatCore env now itemId w)
  else
    let c := clientConnect env w
    if c.1 then catchClient "SendHeartbeat error: " (sendHeartbeatCore env now itemId c.2)
    else (false, c.2)

/-! ## `Client::GetServiceStatus` item parsing (lines 780-812) -/

/-- `ProcessStatus` (ProcessGuardClient.hpp lines 57-69). -/
structure ProcessStatus where
  id : String
  name : String
  exePath : String
  enabled : Bool
  processId : Int
  lastHeartbeatMs : Int
  heartbeatTimeoutMs : Int
  restartCount : Int
  isAlive : Bool
  isHeartbeatOk : Bool
deriving DecidableEq

/-- Sequencing of throwing `nlohmann` accessors inside one `try` block. -/
def bindE {α β : Type} (x : Except String α) (f : α → Except String β) : Except String β :=
  match x with
  | .error m => .error m
  | .ok a => f a

/-- The guarded `process_id` read (lines 791-798):
`if (item.contains("process_id") && !item["process_id"].is_null())
    ps.processId = item.value("process_id", 0); else ps.processId = 0;`. -/
def parsePidField (item : Json) : Except String Int :=
  match item.lookup "process_id" with
  | none => .ok 0
  | some Json.null => .ok 0
  | some _ => item.valueInt "process_id" 0

/-- The per-item body of the `status` parse loop (lines 786-803), building a
`ProcessStatus` from one `data.items` entry; a thrown `nlohmann` error is the
per-item `catch` at line 806 (the caller skips the item). -/
def parseProcessStatus (item : Json) : Except String ProcessStatus :=
  bindE (item.valueStr "id" "") (fun idv =>
  bindE (item.valueStr "name" "") (fun namev =>
  bindE (item.valueStr "exe_path" "") (fun exePathv =>
  bindE (item.valueBool "enabled" false) (fun enabledv =>
  bindE (parsePidField item) (fun pidv =>
  bindE (item.valueInt "last_heartbeat_ms" 0) (fun lhm =>
  bindE (item.valueInt "heartbeat_timeout_ms" 1000) (fun hto =>
  bindE (item.valueInt "restart_count" 0) (fun rc =>
  bindE (item.valueBool "is_alive" false) (fun ia =>
  bindE (item.valueBool "is_heartbeat_ok" false) (fun iho =>
  .ok { id := idv, name := namev, exePath := exePathv, enabled := enabledv,
        processId := pidv, lastHeartbeatMs := lhm, heartbeatTimeoutMs := hto,
        restartCount := rc, isAlive := ia, isHeartbeatOk := iho }))))))))))

/-- The `status` items loop of `GetServiceStatus` (lines 780-812): parse each
entry of `data.items` in order, skipping entries whose parse throws (the
per-item `catch ... continue`). -/
def statusItems : List Json → List ProcessStatus
  | [] => []
  | j :: rest =>
    match parseProcessStatus j with
    | .ok ps => ps :: statusItems rest
    | .error _ => statusItems rest

/-! ## Heartbeat thread management (lines 877-906) -/

/-- The two heartbeat maps of `Client::Impl`: `heartbeatThreads` (item id to
the interval the spawned thread was created with — presence of a key models
presence of a live `std::thread`) and `heartbeatRunning`. -/
structure HbThreads where
  threads : List (String × Nat)
  running : List (String × Bool)

/-- Externally visible effects of `StopHeartbeatThread` on the thread it
owns, in program order. -/
inductive HbEvent where
  | setRunningFalse (itemId : String)
  | joinThread (itemId : String)

/-- `Client::StartHeartbeatThread` (lines 877-891): a no-op when a thread for
`itemId` is already registered; otherwise set `heartbeatRunning[itemId] =
true` and register a new thread running at `intervalMs`. -/
def startHeartbeatThread (s : HbThreads) (itemId : String) (intervalMs : Nat) : HbThreads :=
  match lookupA s.threads itemId with
  | some _ => s
  | none =>
    { threads := s.threads ++ [(itemId, intervalMs)]
      running := setA s.running itemId true }

/-- `Client::StopHeartbeatThread` (lines 893-906): when a thread for `itemId`
is registered, set its running flag to `false`, join the thread, and erase
the id from both maps; otherwise do nothing.  The event list records the
flag write and the join, in order, both happening before the function
returns. -/
def stopHeartbeatThread (s : HbThreads) (itemId : String) : HbThreads × List HbEvent :=
  match lookupA s.threads itemId with
  | none => (s, [])
  | some _ =>
    ({ threads := eraseA s.threads itemId
       running := eraseA (setA s.running itemId false) itemId },
     [HbEvent.setRunningFalse itemId, HbEvent.joinThread itemId])

/-! ## Theorems -/

/-- A failure response built by `SendRequest` carries `success:false` and a
string `message`. -/
def isFailureObj (j : Json) : Prop :=
  j.lookup "success" = some (Json.bool false) ∧ ∃ m, j.lookup "message" = some (Json.str m)

theorem failObj_isFailureObj (m : String) : isFailureObj (failObj m) := by
  refine ⟨?_, m, ?_⟩ <;> simp [failObj, Json.lookup, lookupA]

/-- C9: `PauseMonitorItem` is extensionally equal to `StopMonitorItem`, and
`ResumeMonitorItem` is extensionally equal to `StartMonitorItem`: the
pause/resume entry points are direct aliases of stop/start. -/
theorem pause_resume_aliases :
    (∀ (env : Env) (id : String) (w : World),
      pauseMonitorItem env id w = stopMonitorItem env id w)
    ∧ (∀ (env : Env) (id : String) (w : World),
      resumeMonitorItem env id w = startMonitorItem env id w) :=
  ⟨fun _ _ _ => rfl, fun _ _ _ => rfl⟩

/-- C2: when every `CreateFileA` attempt fails with `ERROR_PIPE_BUSY`, the
retry loop of `PipeClient::Connect` never returns — for every timeout, every
possible clock behaviour at the two timeout checks, every starting iteration
and every amount of fuel — because the busy branch skips both the timeout
check and the `WaitNamedPipeA` wait.  This contradicts the specified bound
on the wait: `Connect` does not terminate at `timeoutMs` when the pipe stays
busy. -/
theorem connect_busy_never_terminates (e1 e2 : Nat → Nat) (timeoutMs : Nat) :
    ∀ (fuel k : Nat),
      connectLoop
        { outcome := fun _ => AttemptOutcome.connFail ERROR_PIPE_BUSY
          elapsed1 := e1, elapsed2 := e2 } timeoutMs k fuel = none := by
  intro fuel
  induction fuel with
  | zero => intro k; rfl
  | succ n ih =>
    intro k
    exact ih (k + 1)

/-- C10: the single `ReadFile` of `SendRequest` requests at most
`PIPE_BUFFER_SIZE - 1 = 65535` bytes, so `bytesRead` is at most 65535 and the
terminating NUL written at index `bytesRead` lands inside the 65536-byte
buffer for every possible read; a response longer than 65535 bytes is
truncated to the bytes of that single read. -/
theorem sendRequest_read_bounds (avail : List Char) (osCount : Nat) :
    (readFileBytes avail osCount).length ≤ PIPE_BUFFER_SIZE - 1
    ∧ (readFileBytes avail osCount).length < PIPE_BUFFER_SIZE
    ∧ readFileBytes avail avail.length = avail.take (PIPE_BUFFER_SIZE - 1)
    ∧ (avail.length > PIPE_BUFFER_SIZE - 1 →
        (readFileBytes avail avail.length).length = PIPE_BUFFER_SIZE - 1) := by
  refine ⟨?_, ?_, ?_, ?_⟩
  · simp only [readFileBytes, List.length_take]
    omega
  · simp only [readFileBytes, List.length_take, PIPE_BUFFER_SIZE]
    omega
  · simp only [readFileBytes]
    rcases Nat.le_total avail.length (PIPE_BUFFER_SIZE - 1) with h | h
    · rw [Nat.min_eq_left h, List.take_length, List.take_of_length_le h]
    · rw [Nat.min_eq_right h]
  · intro h
    simp only [readFileBytes, List.length_take]
    omega

theorem sendRequest_read_bounds_check :
    (readFileBytes (List.replicate 70000 'a') 70000).length = 65535 := by
  have h := (sendRequest_read_bounds (List.replicate 70000 'a') 70000).2.2.2
  rw [List.length_replicate] at h
  rw [h (by norm_num [PIPE_BUFFER_SIZE])]
  norm_num [PIPE_BUFFER_SIZE]

/-- C3: after `PipeClient::SendRequest` returns — on success as well as on a
write, read or parse failure — the pipe handle is closed and the client
reports not connected, so a further `SendRequest` on the same client fails
with "Not connected" and performs no exchange.  (The hypothesis is the
`PipeClient` state invariant: a disconnected client holds no handle.) -/
theorem sendRequest_single_cycle (st : PipeState) (xr xr2 : ExchangeResult)
    (hinv : st.connected = false → st.handle = none) :
    (pipeSendRequest st xr).2.connected = false
    ∧ (pipeSendRequest st xr).2.handle = none
    ∧ pipeSendRequest (pipeSendRequest st xr).2 xr2
        = (failObj "Not connected", (pipeSendRequest st xr).2) := by
  cases hc : st.connected with
  | false =>
    simp [pipeSendRequest, hc, hinv hc]
  | true =>
    cases xr <;> simp [pipeSendRequest, hc, pipeDisconnected]

theorem sendRequest_single_cycle_check :
    (pipeSendRequest { handle := some 3, connected := true } ExchangeResult.readFail).2.connected
        = false
    ∧ (pipeSendRequest { handle := some 3, connected := true } ExchangeResult.readFail).2.handle
        = none :=
  ⟨(sendRequest_single_cycle { handle := some 3, connected := true }
      ExchangeResult.readFail ExchangeResult.readFail (by simp)).1,
   (sendRequest_single_cycle { handle := some 3, connected := true }
      ExchangeResult.readFail ExchangeResult.readFail (by simp)).2.1⟩

/-- C6: every failure path of `PipeClient::SendRequest` returns an object
carrying `success:false` and a `message` string — "Not connected" when the
client is not connected, "Write failed" on a write failure, "Read failed" on
a read failure, and a parse-error message when the response does not parse —
and on a transport-level write or read failure the connection is dropped
(handle closed, connected flag cleared) in the state the call returns. -/
theorem sendRequest_failure_paths (st : PipeState) (xr : ExchangeResult) :
    (st.connected = false → (pipeSendRequest st xr).1 = failObj "Not connected")
    ∧ (st.connected = true → xr = ExchangeResult.writeFail →
        (pipeSendRequest st xr).1 = failObj "Write failed"
        ∧ (pipeSendRequest st xr).2 = pipeDisconnected)
    ∧ (st.connected = true → xr = ExchangeResult.readFail →
        (pipeSendRequest st xr).1 = failObj "Read failed"
        ∧ (pipeSendRequest st xr).2 = pipeDisconnected)
    ∧ (∀ m, st.connected = true → xr = ExchangeResult.parseFail m →
        (pipeSendRequest st xr).1 = failObj ("Parse error: " ++ m)
        ∧ (pipeSendRequest st xr).2 = pipeDisconnected)
    ∧ (st.connected = true → xr = ExchangeResult.parseUnknown →
        (pipeSendRequest st xr).1 = failObj "Unknown parse error"
        ∧ (pipeSendRequest st xr).2 = pipeDisconnected)
    ∧ (∀ m, isFailureObj (failObj m)) := by
  refine ⟨?_, ?_, ?_, ?_, ?_, failObj_isFailureObj⟩ <;>
    (intros; subst_vars; simp_all [pipeSendRequest])

theorem bindE_ok {α β : Type} {x : Except String α} {f : α → Except String β} {b : β}
    (h : bindE x f = Except.ok b) : ∃ a, x = Except.ok a ∧ f a = Except.ok b := by
  cases x with
  | error m => simp [bindE] at h
  | ok a => exact ⟨a, rfl, h⟩

theorem valueStr_ok_of_none {j : Json} {k d v : String}
    (h : j.valueStr k d = Except.ok v) (hl : j.lookup k = none) : v = d := by
  cases j with
  | obj fs =>
    simp only [Json.valueStr] at h
    simp only [Json.lookup] at hl
    rw [hl] at h
    exact (Except.ok.inj h).symm
  | null => simp [Json.valueStr] at h
  | bool b => simp [Json.valueStr] at h
  | num n => simp [Json.valueStr] at h
  | str s => simp [Json.valueStr] at h
  | arr xs => simp [Json.valueStr] at h

theorem valueBool_ok_of_none {j : Json} {k : String} {d v : Bool}
    (h : j.valueBool k d = Except.ok v) (hl : j.lookup k = none) : v = d := by
  cases j with
  | obj fs =>
    simp only [Json.valueBool] at h
    simp only [Json.lookup] at hl
    rw [hl] at h
    exact (Except.ok.inj h).symm
  | null => simp [Json.valueBool] at h
  | bool b => simp [Json.valueBool] at h
  | num n => simp [Json.valueBool] at h
  | str s => simp [Json.valueBool] at h
  | arr xs => simp [Json.valueBool] at h

theorem valueInt_ok_of_none {j : Json} {k : String} {d v : Int}
    (h : j.valueInt k d = Except.ok v) (hl : j.lookup k = none) : v = d := by
  cases j with
  | obj fs =>
    simp only [Json.valueInt] at h
    simp only [Json.lookup] at hl
    rw [hl] at h
    exact (Except.ok.inj h).symm
  | null => simp [Json.valueInt] at h
  | bool b => simp [Json.valueInt] at h
  | num n => simp [Json.valueInt] at h
  | str s => simp [Json.valueInt] at h
  | arr xs => simp [Json.valueInt] at h

theorem parsePid_ok_of_absent_or_null {j : Json} {v : Int}
    (h : parsePidField j = Except.ok v)
    (hl : j.lookup "process_id" = none ∨ j.lookup "process_id" = some Json.null) :
    v = 0 := by
  rcases hl with hl | hl <;>
    (simp only [parsePidField, hl] at h; exact (Except.ok.inj h).symm)

/-- C7: the `status` item parser of `GetServiceStatus` maps a `process_id`
field that is absent or null to `processId = 0`, and maps each of the other
documented fields, when absent, to its default: empty string for `id`,
`name`, `exe_path`; `false` for `enabled`, `is_alive`, `is_heartbeat_ok`;
`0` for `last_heartbeat_ms` and `restart_count`; `1000` for
`heartbeat_timeout_ms`. -/
theorem getServiceStatus_item_parsing (j : Json) (ps : ProcessStatus)
    (h : parseProcessStatus j = Except.ok ps) :
    ((j.lookup "process_id" = none ∨ j.lookup "process_id" = some Json.null) →
        ps.processId = 0)
    ∧ (j.lookup "id" = none → ps.id = "")
    ∧ (j.lookup "name" = none → ps.name = "")
    ∧ (j.lookup "exe_path" = none → ps.exePath = "")
    ∧ (j.lookup "enabled" = none → ps.enabled = false)
    ∧ (j.lookup "last_heartbeat_ms" = none → ps.lastHeartbeatMs = 0)
    ∧ (j.lookup "heartbeat_timeout_ms" = none → ps.heartbeatTimeoutMs = 1000)
    ∧ (j.lookup "restart_count" = none → ps.restartCount = 0)
    ∧ (j.lookup "is_alive" = none → ps.isAlive = false)
    ∧ (j.lookup "is_heartbeat_ok" = none → ps.isHeartbeatOk = false) := by
  unfold parseProcessStatus at h
  obtain ⟨idv, h1, h⟩ := bindE_ok h
  obtain ⟨namev, h2, h⟩ := bindE_ok h
  obtain ⟨exePathv, h3, h⟩ := bindE_ok h
  obtain ⟨enabledv, h4, h⟩ := bindE_ok h
  obtain ⟨pidv, h5, h⟩ := bindE_ok h
  obtain ⟨lhm, h6, h⟩ := bindE_ok h
  obtain ⟨hto, h7, h⟩ := bindE_ok h
  obtain ⟨rc, h8, h⟩ := bindE_ok h
  obtain ⟨ia, h9, h⟩ := bindE_ok h
  obtain ⟨iho, h10, h⟩ := bindE_ok h
  have hps := (Except.ok.inj h).symm
  subst hps
  exact ⟨fun hl => parsePid_ok_of_absent_or_null h5 hl,
    fun hl => valueStr_ok_of_none h1 hl,
    fun hl => valueStr_ok_of_none h2 hl,
    fun hl => valueStr_ok_of_none h3 hl,
    fun hl => valueBool_ok_of_none h4 hl,
    fun hl => valueInt_ok_of_none h6 hl,
    fun hl => valueInt_ok_of_none h7 hl,
    fun hl => valueInt_ok_of_none h8 hl,
    fun hl => valueBool_ok_of_none h9 hl,
    fun hl => valueBool_ok_of_none h10 hl⟩

/-- The fully-defaulted `ProcessStatus`, produced for an empty status item. -/
def psDefault : ProcessStatus :=
  { id := "", name := "", exePath := "", enabled := false, processId := 0,
    lastHeartbeatMs := 0, heartbeatTimeoutMs := 1000, restartCount := 0,
    isAlive := false, isHeartbeatOk := false }

theorem getServiceStatus_item_parsing_check :
    parseProcessStatus (Json.obj []) = Except.ok psDefault
    ∧ psDefault.processId = 0 ∧ psDefault.heartbeatTimeoutMs = 1000 :=
  ⟨rfl, (getServiceStatus_item_parsing (Json.obj []) psDefault rfl).1 (Or.inl rfl),
    (getServiceStatus_item_parsing (Json.obj []) psDefault rfl).2.2.2.2.2.2.1 rfl⟩

theorem lookupA_eraseA_self {α : Type} (xs : List (String × α)) (k : String) :
    lookupA (eraseA xs k) k = none := by
  induction xs with
  | nil => rfl
  | cons p rest ih =>
    obtain ⟨pk, pv⟩ := p
    by_cases h : pk = k
    · simp [eraseA, h, ih]
    · simp [eraseA, lookupA, h, ih]

theorem lookupA_none_not_mem {α : Type} (xs : List (String × α)) (k : String)
    (h : lookupA xs k = none) : k ∉ xs.map Prod.fst := by
  induction xs with
  | nil => simp
  | cons p rest ih =>
    obtain ⟨pk, pv⟩ := p
    simp only [lookupA] at h
    by_cases hk : pk = k
    · simp [hk] at h
    · rw [if_neg hk] at h
      simp only [List.map_cons, List.mem_cons]
      push_neg
      exact ⟨fun e => hk e.symm, ih h⟩

/-- C8: the client keeps at most one heartbeat thread per item id:
`StartHeartbeatThread` is a no-op (the new interval is ignored) when a thread
for the id is already registered, and it preserves distinctness of the
registered ids; `StopHeartbeatThread` on a registered id sets the running
flag to false and then joins the thread — both before returning — and erases
the id from both the thread map and the running-flag map. -/
theorem heartbeatThread_lifecycle (s : HbThreads) (itemId : String) :
    (∀ i, (lookupA s.threads itemId).isSome = true → startHeartbeatThread s itemId i = s)
    ∧ (∀ i, (s.threads.map Prod.fst).Nodup →
        ((startHeartbeatThread s itemId i).threads.map Prod.fst).Nodup)
    ∧ ((lookupA s.threads itemId).isSome = true →
        (stopHeartbeatThread s itemId).2
          = [HbEvent.setRunningFalse itemId, HbEvent.joinThread itemId]
        ∧ lookupA (stopHeartbeatThread s itemId).1.threads itemId = none
        ∧ lookupA (stopHeartbeatThread s itemId).1.running itemId = none) := by
  refine ⟨?_, ?_, ?_⟩
  · intro i h
    unfold startHeartbeatThread
    cases hl : lookupA s.threads itemId with
    | some v => rfl
    | none => rw [hl] at h; simp at h
  · intro i hnd
    unfold startHeartbeatThread
    cases hl : lookupA s.threads itemId with
    | some v => exact hnd
    | none =>
      simp only [List.map_append, List.map_cons, List.map_nil]
      refine List.Nodup.append hnd (List.nodup_singleton _) ?_
      intro a ha hb
      rw [List.mem_singleton] at hb
      subst hb
      exact lookupA_none_not_mem _ _ hl ha
  · intro h
    cases hl : lookupA s.threads itemId with
    | none => rw [hl] at h; simp at h
    | some v =>
      refine ⟨?_, ?_, ?_⟩ <;>
        simp [stopHeartbeatThread, hl, lookupA_eraseA_self]

theorem heartbeatThread_lifecycle_check :
    startHeartbeatThread ⟨[("a", 5)], [("a", true)]⟩ "a" 99 = ⟨[("a", 5)], [("a", true)]⟩
    ∧ (stopHeartbeatThread ⟨[("a", 5)], [("a", true)]⟩ "a").2
        = [HbEvent.setRunningFalse "a", HbEvent.joinThread "a"]
    ∧ lookupA (stopHeartbeatThread ⟨[("a", 5)], [("a", true)]⟩ "a").1.threads "a" = none
    ∧ lookupA (stopHeartbeatThread ⟨[("a", 5)], [("a", true)]⟩ "a").1.running "a" = none :=
  ⟨(heartbeatThread_lifecycle ⟨[("a", 5)], [("a", true)]⟩ "a").1 99 rfl,
   ((heartbeatThread_lifecycle ⟨[("a", 5)], [("a", true)]⟩ "a").2.2 rfl).1,
   ((heartbeatThread_lifecycle ⟨[("a", 5)], [("a", true)]⟩ "a").2.2 rfl).2.1,
   ((heartbeatThread_lifecycle ⟨[("a", 5)], [("a", true)]⟩ "a").2.2 rfl).2.2⟩

/-- C4: for every `MonitorItem` with an empty id, an empty executable path or
an empty name, `AddMonitorItem` returns false with the corresponding
validation message in `lastError` (checked in source order: id, then path,
then name) and sends no request at all — the sent log and the exchange
counter are untouched. -/
theorem addMonitorItem_validation_rejects (env : Env) (item : MonitorItem) (w : World)
    (hconn : w.cs.connected = true)
    (hv : item.id = "" ∨ item.exePath = "" ∨ item.name = "") :
    (addMonitorItem env item w).1 = false
    ∧ (addMonitorItem env item w).2.sent = w.sent
    ∧ (addMonitorItem env item w).2.nExch = w.nExch
    ∧ (addMonitorItem env item w).2.cs.lastError =
        (if item.id = "" then "Item ID cannot be empty"
         else if item.exePath = "" then "Executable path cannot be empty"
         else "Item name cannot be empty") := by
  have hbranch : addMonitorItem env item w = addAfterConnect env item w := by
    simp [addMonitorItem, hconn]
  rw [hbranch]
  by_cases h1 : item.id = ""
  · simp [addAfterConnect, h1, setLastError]
  · by_cases h2 : item.exePath = ""
    · simp [addAfterConnect, h1, h2, setLastError]
    · rcases hv with h | h | h
      · exact absurd h h1
      · exact absurd h h2
      · simp [addAfterConnect, h1, h2, h, setLastError]

theorem addMonitorItem_validation_rejects_check :
    (addMonitorItem { connectOk := fun _ => true, exch := fun _ => ExchangeResult.readFail }
        { id := "", exePath := "p", args := "", name := "n", minimize := false,
          noWindow := false, enabled := true, heartbeatTimeoutMs := 1000 }
        { cs := { pipe := { handle := some 0, connected := true }, connected := true,
                  lastError := "", hbCallbackSet := false },
          nConnect := 0, nExch := 0, sent := [], hbFailCalls := [] }).1 = false
    ∧ (addMonitorItem { connectOk := fun _ => true, exch := fun _ => ExchangeResult.readFail }
        { id := "", exePath := "p", args := "", name := "n", minimize := false,
          noWindow := false, enabled := true, heartbeatTimeoutMs := 1000 }
        { cs := { pipe := { handle := some 0, connected := true }, connected := true,
                  lastError := "", hbCallbackSet := false },
          nConnect := 0, nExch := 0, sent := [], hbFailCalls := [] }).2.sent = [] := by
  have h := addMonitorItem_validation_rejects
    { connectOk := fun _ => true, exch := fun _ => ExchangeResult.readFail }
    { id := "", exePath := "p", args := "", name := "n", minimize := false,
      noWindow := false, enabled := true, heartbeatTimeoutMs := 1000 }
    { cs := { pipe := { handle := some 0, connected := true }, connected := true,
              lastError := "", hbCallbackSet := false },
      nConnect := 0, nExch := 0, sent := [], hbFailCalls := [] }
    rfl (Or.inl rfl)
  exact ⟨h.1, h.2.1⟩

/-- Environment refuting C5 as stated: every `PipeClient::Connect` attempt
fails. -/
def hbFailEnv : Env :=
  { connectOk := fun _ => false, exch := fun _ => ExchangeResult.readFail }

/-- A client that starts disconnected and has the heartbeat-failed callback
installed. -/
def hbFailWorld : World :=
  { cs := { pipe := pipeDisconnected, connected := false, lastError := "",
            hbCallbackSet := true },
    nConnect := 0, nExch := 0, sent := [], hbFailCalls := [] }

/-- C5 counterexample: the claim says that whenever `SendHeartbeat` returns
false the heartbeat-failed callback, if set, is invoked with the item id.
With the callback set and the client disconnected, a failing initial
`Connect` makes `SendHeartbeat` return false from the early
`if (!impl_->connected && !Connect()) return false;` — no heartbeat request
is sent and the callback is never invoked. -/
theorem sendHeartbeat_connect_fail_no_callback :
    hbFailWorld.cs.hbCallbackSet = true
    ∧ (sendHeartbeat hbFailEnv 0 "item1" hbFailWorld).1 = false
    ∧ (sendHeartbeat hbFailEnv 0 "item1" hbFailWorld).2.hbFailCalls = []
    ∧ (sendHeartbeat hbFailEnv 0 "item1" hbFailWorld).2.sent = [] :=
  ⟨rfl, rfl, rfl, rfl⟩

/-- C5 (amended): when the client is connected and the exchange delivers a
parsed response object, `SendHeartbeat(itemId)` writes exactly one request
object carrying type "heartbeat", `item_id = itemId` and a `timestamp` field;
it returns the response's `success` value, and whenever that value is false
the heartbeat-failed callback, if set, is invoked with `itemId` (and
`lastError` records the response's message).  When the initial connection
attempt fails, `SendHeartbeat` instead returns false without sending any
request or invoking the callback. -/
theorem sendHeartbeat_exchange_spec (env : Env) (now : Int) (itemId : String) (w : World)
    (resp : Json) (b : Bool) (m : String)
    (hconn : w.cs.connected = true) (hpipe : w.cs.pipe.connected = true)
    (hx : env.exch w.nExch = ExchangeResult.parsed resp)
    (hobj : resp.isObject = true)
    (hb : resp.valueBool "success" false = Except.ok b)
    (hm : resp.valueStr "message" "Unknown error" = Except.ok m) :
    (sendHeartbeat env now itemId w).2.sent
      = w.sent ++ [Json.obj [("type", Json.str "heartbeat"), ("item_id", Json.str itemId),
          ("timestamp", Json.num now)]]
    ∧ (sendHeartbeat env now itemId w).1 = b
    ∧ (b = false → w.cs.hbCallbackSet = true →
        (sendHeartbeat env now itemId w).2.hbFailCalls = w.hbFailCalls ++ [itemId]
        ∧ (sendHeartbeat env now itemId w).2.cs.lastError = "Heartbeat failed: " ++ m) := by
  cases b with
  | true =>
    simp [sendHeartbeat, hconn, sendHeartbeatCore, clientSendRequest, hpipe, hx,
      pipeSendRequest, hobj, hb, hm, syncConnected, setLastError, liftJ, catchClient,
      pipeDisconnected]
  | false =>
    by_cases hcb : w.cs.hbCallbackSet = true
    · refine ⟨?_, ?_, fun _ _ => ⟨?_, ?_⟩⟩ <;>
        simp [sendHeartbeat, hconn, sendHeartbeatCore, clientSendRequest, hpipe, hx,
          pipeSendRequest, hobj, hb, hm, syncConnected, setLastError, liftJ, catchClient,
          pipeDisconnected, hcb]
    · refine ⟨?_, ?_, fun _ hcb2 => absurd hcb2 hcb⟩ <;>
        simp [sendHeartbeat, hconn, sendHeartbeatCore, clientSendRequest, hpipe, hx,
          pipeSendRequest, hobj, hb, hm, syncConnected, setLastError, liftJ, catchClient,
          pipeDisconnected, hcb]

theorem sendHeartbeat_exchange_spec_check :
    (sendHeartbeat
        { connectOk := fun _ => true,
          exch := fun _ => ExchangeResult.parsed
            (Json.obj [("success", Json.bool false), ("message", Json.str "unknown id")]) }
        7 "it"
        { cs := { pipe := { handle := some 0, connected := true }, connected := true,
                  lastError := "", hbCallbackSet := true },
          nConnect := 0, nExch := 0, sent := [], hbFailCalls := [] }).1 = false
    ∧ (sendHeartbeat
        { connectOk := fun _ => true,
          exch := fun _ => ExchangeResult.parsed
            (Json.obj [("success", Json.bool false), ("message", Json.str "unknown id")]) }
        7 "it"
        { cs := { pipe := { handle := some 0, connected := true }, connected := true,
                  lastError := "", hbCallbackSet := true },
          nConnect := 0, nExch := 0, sent := [], hbFailCalls := [] }).2.hbFailCalls
        = ["it"] := by
  have h := sendHeartbeat_exchange_spec
    { connectOk := fun _ => true,
      exch := fun _ => ExchangeResult.parsed
        (Json.obj [("success", Json.bool false), ("message", Json.str "unknown id")]) }
    7 "it"
    { cs := { pipe := { handle := some 0, connected := true }, connected := true,
              lastError := "", hbCallbackSet := true },
      nConnect := 0, nExch := 0, sent := [], hbFailCalls := [] }
    (Json.obj [("success", Json.bool false), ("message", Json.str "unknown id")])
    false "unknown id" rfl rfl rfl rfl rfl rfl
  exact ⟨h.2.1, (h.2.2 rfl rfl).1⟩

theorem scanDup_true_ne_empty {p : String} :
    ∀ {xs : List Json}, scanDup p xs = Except.ok true → p ≠ "" := by
  intro xs
  induction xs with
  | nil => intro h; simp [scanDup] at h
  | cons e rest ih =>
    intro h
    cases hv : e.valueStr "exe_path" "" with
    | error m => simp [scanDup, hv] at h
    | ok s =>
      simp only [scanDup, hv] at h
      by_cases hc : s ≠ "" ∧ s = p
      · exact hc.2 ▸ hc.1
      · rw [if_neg hc] at h
        exact ih h

/-- C1: if the `list` response returned by the service contains an item whose
`exe_path` equals the (non-empty) `exePath` of the item being added, then
`AddMonitorItem` — for an item passing the id/name validation — returns
false, sets `lastError` to "Executable path already monitored", and the only
request written to the pipe is the `list` request: no `add` request is ever
sent.  The duplicate check is thus performed client-side before the add. -/
theorem addMonitorItem_dup_rejected (env : Env) (item : MonitorItem) (w : World)
    (listResp : Json) (xs : List Json)
    (hid : item.id ≠ "") (hname : item.name ≠ "")
    (hconn : w.cs.connected = true) (hpipe : w.cs.pipe.connected = true)
    (hx : env.exch w.nExch = ExchangeResult.parsed listResp)
    (hdata : listResp.dataArray = some xs)
    (hdup : scanDup item.exePath xs = Except.ok true) :
    (addMonitorItem env item w).1 = false
    ∧ (addMonitorItem env item w).2.cs.lastError = "Executable path already monitored"
    ∧ (addMonitorItem env item w).2.sent = w.sent ++ [Json.obj [("type", Json.str "list")]] := by
  have hpath : item.exePath ≠ "" := scanDup_true_ne_empty hdup
  simp [addMonitorItem, hconn, addAfterConnect, hid, hpath, hname, addCore,
    clientSendRequest, hpipe, hx, pipeSendRequest, syncConnected, hdata, liftJ, hdup,
    setLastError, catchClient, pipeDisconnected]

theorem addMonitorItem_dup_rejected_check :
    (addMonitorItem
        { connectOk := fun _ => true,
          exch := fun _ => ExchangeResult.parsed
            (Json.obj [("success", Json.bool true),
              ("data", Json.arr [Json.obj [("exe_path", Json.str "C:\\app.exe")]])]) }
        { id := "id1", exePath := "C:\\app.exe", args := "", name := "App",
          minimize := false, noWindow := false, enabled := true, heartbeatTimeoutMs := 1000 }
        { cs := { pipe := { handle := some 0, connected := true }, connected := true,
                  lastError := "", hbCallbackSet := false },
          nConnect := 0, nExch := 0, sent := [], hbFailCalls := [] }).1 = false
    ∧ (addMonitorItem
        { connectOk := fun _ => true,
          exch := fun _ => ExchangeResult.parsed
            (Json.obj [("success", Json.bool true),
              ("data", Json.arr [Json.obj [("exe_path", Json.str "C:\\app.exe")]])]) }
        { id := "id1", exePath := "C:\\app.exe", args := "", name := "App",
          minimize := false, noWindow := false, enabled := true, heartbeatTimeoutMs := 1000 }
        { cs := { pipe := { handle := some 0, connected := true }, connected := true,
                  lastError := "", hbCallbackSet := false },
          nConnect := 0, nExch := 0, sent := [], hbFailCalls := [] }).2.sent
        = [Json.obj [("type", Json.str "list")]] := by
  have h := addMonitorItem_dup_rejected
    { connectOk := fun _ => true,
      exch := fun _ => ExchangeResult.parsed
        (Json.obj [("success", Json.bool true),
          ("data", Json.arr [Json.obj [("exe_path", Json.str "C:\\app.exe")]])]) }
    { id := "id1", exePath := "C:\\app.exe", args := "", name := "App",
      minimize := false, noWindow := false, enabled := true, heartbeatTimeoutMs := 1000 }
    { cs := { pipe := { handle := some 0, connected := true }, connected := true,
              lastError := "", hbCallbackSet := false },
      nConnect := 0, nExch := 0, sent := [], hbFailCalls := [] }
    (Json.obj [("success", Json.bool true),
      ("data", Json.arr [Json.obj [("exe_path", Json.str "C:\\app.exe")]])])
    [Json.obj [("exe_path", Json.str "C:\\app.exe")]]
    (by decide) (by decide) rfl rfl rfl rfl rfl
  exact ⟨h.1, h.2.2⟩

theorem sendRequest_failure_paths_check :
    (pipeSendRequest { handle := some 1, connected := true } ExchangeResult.writeFail).1
        = failObj "Write failed"
    ∧ (pipeSendRequest { handle := some 1, connected := true } ExchangeResult.writeFail).2
        = pipeDisconnected :=
  (sendRequest_failure_paths { handle := some 1, connected := true }
    ExchangeResult.writeFail).2.1 rfl rfl

end ProcessGuard
